import Mathlib

/-!
Shallow embedding of the Completion Layer of opendal
(`src/core/src/layers/complete.rs`) together with the sftp and dbfs
deleters (`src/core/src/services/sftp/delete.rs`,
`src/core/src/services/dbfs/delete.rs`), and proofs about them.

Inner backends (accessors, writers, readers, SFTP clients, HTTP cores)
are modelled as explicit state machines / oracles: each inner operation
is a Lean function returning its new state and its outcome, mirroring
the `&mut self` methods of the Rust traits. Byte buffers are lists of
bytes; a lister is the finite sequence of entries it will produce, as
the spec's data model describes. Byte counters use `Nat`: the `u64`
counters in the source cannot overflow on any sum of buffer lengths
treated here, and every comparison in the source is on the mathematical
value.
-/

namespace Opendal

/-- Entry mode, mirroring `EntryMode` (`FILE`, `DIR`, `UNKNOWN`). -/
inductive EntryMode where
  | FILE
  | DIR
  | UNKNOWN
deriving DecidableEq

/-- Error kinds this layer produces, mirroring `ErrorKind`; `Other` stands
for every kind produced elsewhere and passed through. -/
inductive ErrorKind where
  | NotFound
  | Unexpected
  | Other
deriving DecidableEq

/-- Mirrors `Error`: a kind, a message, and ordered numeric context fields
added by `with_context`. -/
structure OError where
  kind : ErrorKind
  message : String
  context : List (String × Nat)
deriving DecidableEq

/-- Mirrors `Error::new`. -/
def OError.new (k : ErrorKind) (msg : String) : OError :=
  { kind := k, message := msg, context := [] }

/-- Mirrors `Error::with_context`: appends one context field. -/
def OError.with_context (e : OError) (k : String) (v : Nat) : OError :=
  { e with context := e.context ++ [(k, v)] }

/-- A byte buffer, as a list of byte values; `Buffer::len` is `List.length`
and `Buffer::is_empty` is emptiness of the list. -/
abbrev Buffer := List Nat

/-- Mirrors `Metadata` as observed by this layer: an entry mode and a
content length (`Metadata::content_length()` reports `0` when unset). -/
structure Metadata where
  mode : EntryMode
  content_length : Nat
deriving DecidableEq

/-- Mirrors `Metadata::new`: the given mode, no content length. -/
def Metadata.new (m : EntryMode) : Metadata :=
  { mode := m, content_length := 0 }

/-- Mirrors `Metadata::with_content_length`. -/
def Metadata.with_content_length (md : Metadata) (n : Nat) : Metadata :=
  { md with content_length := n }

/-- Mirrors `Metadata::is_file`. -/
def Metadata.is_file (md : Metadata) : Bool :=
  md.mode == EntryMode.FILE

/-- Mirrors `path.ends_with('/')` on the source's UTF-8 paths. -/
def ends_with_slash (p : String) : Bool :=
  p.toList.getLast? == some '/'

/-- Character-list prefix test, mirroring `str::starts_with`. -/
def chars_start_with : List Char → List Char → Bool
  | _, [] => true
  | [], _ :: _ => false
  | a :: as, b :: bs => a == b && chars_start_with as bs

/-- Mirrors `s.starts_with(p)` on paths. -/
def starts_with (s p : String) : Bool :=
  chars_start_with s.toList p.toList

/-- Modelled from the spec: `OpWrite` is not under `src/`; per the spec a
write request carries `{append, content_length?}` where a content length
of `0` means unknown/unchecked. -/
structure OpWrite where
  append : Bool
  content_length : Nat
deriving DecidableEq

/-- Mirrors `OpWrite::default()`: not an append, no declared length. -/
def OpWrite.default : OpWrite :=
  { append := false, content_length := 0 }

/-- Modelled from the spec: `OpList` is not under `src/`; per the spec a
list request carries `{recursive, limit?}`. -/
structure OpList where
  recursive : Bool
  limit : Option Nat
deriving DecidableEq

/-- Mirrors `OpList::default()`. -/
def OpList.default : OpList :=
  { recursive := false, limit := none }

/-- Mirrors `OpList::with_recursive`. -/
def OpList.with_recursive (a : OpList) (b : Bool) : OpList :=
  { a with recursive := b }

/-- Mirrors `OpList::with_limit`. -/
def OpList.with_limit (a : OpList) (n : Nat) : OpList :=
  { a with limit := some n }

/-- Modelled from the spec: `OpStat` is not under `src/`; the layer never
inspects stat arguments, so it is an opaque record. -/
structure OpStat where
deriving DecidableEq

/-- Modelled from the spec: `OpCreateDir` is not under `src/`; the layer
never inspects create-dir arguments. -/
structure OpCreateDir where
deriving DecidableEq

/-- A directory entry as this layer observes it: its key (path) and mode. -/
structure Entry where
  path : String
  mode : EntryMode
deriving DecidableEq

/-- Capability flags consulted by the layer, mirroring the fields of
`Capability` the completion layer reads. -/
structure Capability where
  create_dir : Bool
  list : Bool
  list_with_recursive : Bool
  write_can_empty : Bool
deriving DecidableEq

/-- Modelled from the spec: `AccessorInfo` is not under `src/`; per the
spec it exposes a *native* and a *full* capability view, and the
completion layer is attached once, directly above the backend, at which
point the full view still equals the native view. -/
structure AccessorInfo where
  native : Capability
  full : Capability
deriving DecidableEq

/-- Modelled from the spec: `AccessorInfo::update_full_capability` maps the
full view through the given function, leaving the native view alone. -/
def AccessorInfo.update_full_capability (i : AccessorInfo) (f : Capability → Capability) :
    AccessorInfo :=
  { i with full := f i.full }

/-- Modelled from the spec: the info a bare backend hands to the layer,
both views equal to its native capability set. -/
def AccessorInfo.ofNative (c : Capability) : AccessorInfo :=
  { native := c, full := c }

/-- Mirrors `CompleteLayer::layer`: promotes `create_dir` in the full view
when `list` and `write_can_empty` both hold. -/
def CompleteLayer.layer (c : Capability) : AccessorInfo :=
  (AccessorInfo.ofNative c).update_full_capability (fun cap =>
    if cap.list && cap.write_can_empty then { cap with create_dir := true } else cap)

/-! ## Completing writer (`CompleteWriter`) -/

/-- An inner writer (`W: oio::Write`) as a state machine: each method
mutates the state and reports its outcome, mirroring `&mut self`. -/
structure WriterImpl (σ : Type) where
  write : σ → Buffer → σ × Option OError
  close : σ → σ × Except OError Metadata
  abort : σ → σ × Option OError

/-- Mirrors the fields of `CompleteWriter`: the optional inner sink, the
append flag, and the byte count `size`. -/
structure CompleteWriter (σ : Type) where
  inner : Option σ
  append : Bool
  size : Nat
deriving DecidableEq

/-- Mirrors `CompleteWriter::new`. -/
def CompleteWriter.new (s : σ) (append : Bool) : CompleteWriter σ :=
  { inner := some s, append := append, size := 0 }

/-- Mirrors `CompleteWriter::check`: skipped for appends or a zero
content length, otherwise compares `size` with `content_length`. -/
def CompleteWriter.check (cw : CompleteWriter σ) (content_length : Nat) :
    Except OError Unit :=
  if cw.append || content_length == 0 then .ok ()
  else if cw.size == content_length then .ok ()
  else if cw.size < content_length then
    .error (((OError.new .Unexpected "writer got too little data").with_context
      "expect" content_length).with_context "actual" cw.size)
  else
    .error (((OError.new .Unexpected "writer got too much data").with_context
      "expect" content_length).with_context "actual" cw.size)

/-- The error every operation of a cleared writer returns. -/
def closedErr : OError :=
  OError.new .Unexpected "writer has been closed or aborted"

/-- Mirrors `oio::Write::write` for `CompleteWriter`. -/
def CompleteWriter.write (W : WriterImpl σ) (cw : CompleteWriter σ) (bs : Buffer) :
    CompleteWriter σ × Option OError :=
  match cw.inner with
  | none => (cw, some closedErr)
  | some s =>
    match W.write s bs with
    | (s2, some err) => ({ cw with inner := some s2 }, some err)
    | (s2, none) => ({ cw with inner := some s2, size := cw.size + bs.length }, none)

/-- Mirrors `oio::Write::close` for `CompleteWriter`: the inner sink is
cleared only after the inner close and the length check both succeed. -/
def CompleteWriter.close (W : WriterImpl σ) (cw : CompleteWriter σ) :
    CompleteWriter σ × Except OError Metadata :=
  match cw.inner with
  | none => (cw, .error closedErr)
  | some s =>
    match W.close s with
    | (s2, .error e) => ({ cw with inner := some s2 }, .error e)
    | (s2, .ok ret) =>
      match CompleteWriter.check { cw with inner := some s2 } ret.content_length with
      | .error e => ({ cw with inner := some s2 }, .error e)
      | .ok _ =>
        ({ cw with inner := none },
         .ok (if ret.content_length == 0 then ret.with_content_length cw.size else ret))

/-- Mirrors `oio::Write::abort` for `CompleteWriter`. -/
def CompleteWriter.abort (W : WriterImpl σ) (cw : CompleteWriter σ) :
    CompleteWriter σ × Option OError :=
  match cw.inner with
  | none => (cw, some closedErr)
  | some s =>
    match W.abort s with
    | (s2, some err) => ({ cw with inner := some s2 }, some err)
    | (_, none) => ({ cw with inner := none }, none)

/-- Runs a caller's sequence of writes, stopping at the first failure;
used to speak about the total number of bytes a caller wrote. -/
def writeAll (W : WriterImpl σ) : CompleteWriter σ → List Buffer →
    CompleteWriter σ × Option OError
  | cw, [] => (cw, none)
  | cw, bs :: rest =>
    match CompleteWriter.write W cw bs with
    | (cw2, none) => writeAll W cw2 rest
    | (cw2, some e) => (cw2, some e)

/-! ## Completing reader (`CompleteReader`) -/

/-- An inner reader (`R: oio::Read`) as a state machine: one pull per
call, yielding a buffer (empty means end-of-stream) or an error. -/
structure ReaderImpl (σ : Type) where
  read : σ → σ × Except OError Buffer

/-- Mirrors the fields of `CompleteReader`: the inner stream, the
expected size, and the byte count `read`. -/
structure CompleteReader (σ : Type) where
  inner : σ
  size : Option Nat
  read : Nat
deriving DecidableEq

/-- Mirrors `CompleteReader::new`. -/
def CompleteReader.new (s : σ) (size : Option Nat) : CompleteReader σ :=
  { inner := s, size := size, read := 0 }

/-- Mirrors `CompleteReader::check`: no expected size means no check,
otherwise compares `read` with the expected size. -/
def CompleteReader.check (r : CompleteReader σ) : Except OError Unit :=
  match r.size with
  | none => .ok ()
  | some size =>
    if r.read == size then .ok ()
    else if r.read < size then
      .error (((OError.new .Unexpected "reader got too little data").with_context
        "expect" size).with_context "actual" r.read)
    else
      .error (((OError.new .Unexpected "reader got too much data").with_context
        "expect" size).with_context "actual" r.read)

/-- Mirrors `oio::Read::read` for `CompleteReader` (named `readOp`
because `read` is the byte-count field). -/
def CompleteReader.readOp (R : ReaderImpl σ) (r : CompleteReader σ) :
    CompleteReader σ × Except OError Buffer :=
  match R.read r.inner with
  | (s2, .error e) => ({ r with inner := s2 }, .error e)
  | (s2, .ok buf) =>
    if buf.isEmpty then
      match CompleteReader.check { r with inner := s2 } with
      | .error e => ({ r with inner := s2 }, .error e)
      | .ok _ => ({ r with inner := s2 }, .ok buf)
    else
      ({ r with inner := s2, read := r.read + buf.length }, .ok buf)

/-! ## Completion accessor dispatch (`CompleteAccessor`) -/

/-- The inner accessor as an oracle: each operation's outcome for each
input. Listers are the finite entry sequences they will produce; `σ` is
the state type of the writers the backend hands out. -/
structure InnerAccessor (σ : Type) where
  statRes : String → OpStat → Except OError Metadata
  listRes : String → OpList → Except OError (List Entry)
  createDirRes : String → OpCreateDir → Except OError Unit
  writeRes : String → OpWrite → Except OError σ
  writer : WriterImpl σ

/-- One call issued to the inner accessor, recorded so theorems can speak
about which inner operations a dispatch performed. -/
inductive InnerCall where
  | statCall (path : String) (args : OpStat)
  | listCall (path : String) (args : OpList)
  | createDirCall (path : String) (args : OpCreateDir)
  | writeCall (path : String) (args : OpWrite)
  | writerCloseCall
deriving DecidableEq

/-- Modelled from the spec: the repository's `get_parent` helper is not
under `src/`; the spec defines it as the substring up to and including
the last `/`, or empty for a bare name. -/
def get_parent (path : String) : String :=
  String.mk ((path.toList.reverse.dropWhile (fun c => c ≠ '/')).reverse)

/-- Mirrors `CompleteAccessor::complete_create_dir`, with a trace of the
inner calls it issues. -/
def complete_create_dir (info : AccessorInfo) (A : InnerAccessor σ)
    (path : String) (args : OpCreateDir) : Except OError Unit × List InnerCall :=
  let capability := info.native
  if capability.create_dir then
    (A.createDirRes path args, [.createDirCall path args])
  else if capability.write_can_empty && capability.list then
    match A.writeRes path OpWrite.default with
    | .error e => (.error e, [.writeCall path OpWrite.default])
    | .ok w =>
      match (A.writer.close w).2 with
      | .error e => (.error e, [.writeCall path OpWrite.default, .writerCloseCall])
      | .ok _ => (.ok (), [.writeCall path OpWrite.default, .writerCloseCall])
  else
    (A.createDirRes path args, [.createDirCall path args])

/-- Mirrors `CompleteAccessor::complete_stat`, with a trace of the inner
calls it issues. Listers being entry sequences, `oio::List::next` is the
head of the sequence. -/
def complete_stat (info : AccessorInfo) (A : InnerAccessor σ)
    (path : String) (args : OpStat) : Except OError Metadata × List InnerCall :=
  let capability := info.native
  if path == "/" then
    (.ok (Metadata.new .DIR), [])
  else if ends_with_slash path && capability.create_dir then
    match A.statRes path args with
    | .error e => (.error e, [.statCall path args])
    | .ok meta =>
      if meta.is_file then
        (.error (OError.new .NotFound "stat expected a directory, but found a file"),
          [.statCall path args])
      else
        (.ok meta, [.statCall path args])
  else if ends_with_slash path && capability.list_with_recursive then
    let largs := (OpList.default.with_recursive true).with_limit 1
    match A.listRes path largs with
    | .error e => (.error e, [.listCall path largs])
    | .ok l =>
      match l.head? with
      | some _ => (.ok (Metadata.new .DIR), [.listCall path largs])
      | none =>
        (.error (OError.new .NotFound "the directory is not found"),
          [.listCall path largs])
  else
    (A.statRes path args, [.statCall path args])

/-- The four lister shapes `complete_list` builds (`FourWays`). The flat
variants record the traversal root the `FlatLister` was given; the
prefix variants record the retained string. No claim exercises the flat
walk itself, so variants `two` and `four` stay symbolic. -/
inductive CompleteLister where
  | one (entries : List Entry)
  | two (root : String)
  | three (entries : List Entry) (pre : String)
  | four (root : String) (pre : String)
deriving DecidableEq

/-- Mirrors `CompleteAccessor::complete_list`, with a trace of the inner
calls it issues at dispatch time (flat listers open inner listers only
lazily, so their construction issues none). -/
def complete_list (info : AccessorInfo) (A : InnerAccessor σ)
    (path : String) (args : OpList) :
    Except OError CompleteLister × List InnerCall :=
  let cap := info.native
  match args.recursive, cap.list_with_recursive with
  | _, true =>
    match A.listRes path args with
    | .error e => (.error e, [.listCall path args])
    | .ok p => (.ok (.one p), [.listCall path args])
  | true, false =>
    if ends_with_slash path then
      (.ok (.two path), [])
    else
      (.ok (.four (get_parent path) path), [])
  | false, false =>
    if ends_with_slash path then
      match A.listRes path args with
      | .error e => (.error e, [.listCall path args])
      | .ok p => (.ok (.one p), [.listCall path args])
    else
      match A.listRes (get_parent path) args with
      | .error e => (.error e, [.listCall (get_parent path) args])
      | .ok p => (.ok (.three p path), [.listCall (get_parent path) args])

/-- Mirrors `CompleteAccessor::write`: delegate, then wrap the returned
sink in a `CompleteWriter` parameterized by the append flag. -/
def CompleteAccessor.write (A : InnerAccessor σ) (path : String) (args : OpWrite) :
    Except OError (CompleteWriter σ) × List InnerCall :=
  match A.writeRes path args with
  | .error e => (.error e, [.writeCall path args])
  | .ok w => (.ok (CompleteWriter.new w args.append), [.writeCall path args])

/-! ## Prefix-filter lister (`PrefixLister`) -/

/-- Modelled from the spec: `PrefixLister` is referenced by `complete.rs`
but its source is not under `src/`; per the spec its `next()` pulls
entries from the inner lister, discards any whose key does not start
with the stored string, and returns the first retained entry or
end-of-stream. -/
def prefixNext (p : String) : List Entry → Option Entry × List Entry
  | [] => (none, [])
  | e :: rest =>
    if starts_with e.path p then (some e, rest) else prefixNext p rest

/-- The full sequence of entries a `PrefixLister` yields: its pull loop
run to end-of-stream, structurally on the inner sequence. That this is
the iteration of `prefixNext` is proved below. -/
def prefixPull (p : String) : List Entry → List Entry
  | [] => []
  | e :: rest =>
    if starts_with e.path p then e :: prefixPull p rest else prefixPull p rest

/-- Stated from the spec's words for the refinement claim C7: list the
parent and retain, in inner order, exactly the entries whose key starts
with the full path. -/
def spec_list_by_parent_filter (A : InnerAccessor σ) (path : String) (args : OpList) :
    Except OError (List Entry) :=
  (A.listRes (get_parent path) args).map
    (fun es => es.filter (fun e => starts_with e.path path))

theorem prefixPull_is_iterated_next (p : String) (l : List Entry) :
    prefixPull p l =
      (match prefixNext p l with
       | (none, _) => []
       | (some e, rest) => e :: prefixPull p rest) := by
  induction l with
  | nil => rfl
  | cons a as ih =>
    cases hs : starts_with a.path p
    · simp only [prefixPull, prefixNext, hs, Bool.false_eq_true, if_false]
      exact ih
    · simp [prefixPull, prefixNext, hs]

theorem prefixPull_eq_filter (p : String) (l : List Entry) :
    prefixPull p l = l.filter (fun e => starts_with e.path p) := by
  induction l with
  | nil => rfl
  | cons a as ih =>
    cases hs : starts_with a.path p <;> simp [prefixPull, List.filter, hs, ih]

/-! ## SFTP deleter (`SftpDeleter::delete_once`) -/

/-- Which removal an SFTP delete invoked. -/
inductive SftpCall where
  | removeDir (path : String)
  | removeFile (path : String)
deriving DecidableEq

/-- The SFTP client's filesystem handle as an oracle; `ε` is the SFTP
error type. -/
structure SftpFs (ε : Type) where
  remove_dir : String → Except ε Unit
  remove_file : String → Except ε Unit

/-- The deleter's core: connecting yields a filesystem handle (with the
working directory already set to the root) or fails. -/
structure SftpCore (ε : Type) where
  root : String
  connect : Except OError (SftpFs ε)

/-- The `match res` arm of `SftpDeleter::delete_once`: removal success
and a not-found error both succeed, every other error is parsed. -/
def sftpHandle (is_nf : ε → Bool) (parse_sftp : ε → OError) :
    Except ε Unit → Except OError Unit
  | .ok _ => .ok ()
  | .error e => if is_nf e then .ok () else .error (parse_sftp e)

/-- Mirrors `SftpDeleter::delete_once`, parameterized by the repository's
`is_not_found` predicate and `parse_sftp_error` conversion (their
sources are not under `src/`), with a trace of the removal invoked. -/
def SftpDeleter.delete_once (is_nf : ε → Bool) (parse_sftp : ε → OError)
    (core : SftpCore ε) (path : String) : Except OError Unit × List SftpCall :=
  match core.connect with
  | .error e => (.error e, [])
  | .ok fs =>
    if ends_with_slash path then
      (sftpHandle is_nf parse_sftp (fs.remove_dir path), [SftpCall.removeDir path])
    else
      (sftpHandle is_nf parse_sftp (fs.remove_file path), [SftpCall.removeFile path])

/-! ## DBFS deleter (`DbfsDeleter::delete_once`) -/

/-- An HTTP response as the deleter observes it: its status code. -/
structure HttpResponse where
  status : Nat
deriving DecidableEq

/-- The deleter's core: the response (or transport error) of
`dbfs_delete` for each path. -/
structure DbfsCore where
  dbfs_delete : String → Except OError HttpResponse

/-- Mirrors `DbfsDeleter::delete_once`, parameterized by the repository's
`parse_error` conversion (its source is not under `src/`). -/
def DbfsDeleter.delete_once (parse_err : HttpResponse → OError)
    (core : DbfsCore) (path : String) : Except OError Unit :=
  match core.dbfs_delete path with
  | .error e => .error e
  | .ok resp =>
    if resp.status == 200 then .ok () else .error (parse_err resp)

/-! ## Concrete fixtures used by witnesses -/

/-- A trivial inner writer over a unit state: writes and aborts succeed,
close succeeds returning metadata with no content length. -/
def unitWriter : WriterImpl Unit :=
  { write := fun s _ => (s, none)
    close := fun s => (s, .ok (Metadata.new .FILE))
    abort := fun s => (s, none) }

/-- A trivial inner accessor over a unit writer state with an empty
store. -/
def emptyAccessor : InnerAccessor Unit :=
  { statRes := fun _ _ => .ok (Metadata.new .FILE)
    listRes := fun _ _ => .ok []
    createDirRes := fun _ _ => .ok ()
    writeRes := fun _ _ => .ok ()
    writer := unitWriter }

/-- An S3-like inner accessor: no native `create_dir`, recursive listing
available, one object `"x/y.txt"` under prefix `"x/"`. -/
def s3Accessor : InnerAccessor Unit :=
  { statRes := fun _ _ => .error (OError.new .Other "stat dir unsupported")
    listRes := fun p _ =>
      if p == "x/" then .ok [{ path := "x/y.txt", mode := .FILE }] else .ok []
    createDirRes := fun _ _ => .error (OError.new .Other "create dir unsupported")
    writeRes := fun _ _ => .ok ()
    writer := unitWriter }

/-- Info of the S3-like backend: `{list, list_with_recursive}` only. -/
def s3Info : AccessorInfo :=
  AccessorInfo.ofNative
    { create_dir := false, list := true, list_with_recursive := true,
      write_can_empty := false }

/-- An inner writer whose close reports a content length of five. -/
def w5 : WriterImpl Unit :=
  { write := fun s _ => (s, none)
    close := fun s => (s, .ok { mode := .FILE, content_length := 5 })
    abort := fun s => (s, none) }

/-- An inner reader producing the chunks of its state list, then
end-of-stream chunks forever. -/
def streamReader : ReaderImpl (List Buffer) :=
  { read := fun s =>
      match s with
      | [] => ([], .ok [])
      | b :: rest => (rest, .ok b) }

/-- A hierarchical-only backend listing `"dir/"` as apple, apricot,
banana (scenario S5). -/
def dirAccessor : InnerAccessor Unit :=
  { statRes := fun _ _ => .error (OError.new .Other "stat unsupported")
    listRes := fun p _ =>
      if p == "dir/" then
        .ok [{ path := "dir/apple", mode := .FILE },
             { path := "dir/apricot", mode := .FILE },
             { path := "dir/banana", mode := .FILE }]
      else .ok []
    createDirRes := fun _ _ => .ok ()
    writeRes := fun _ _ => .ok ()
    writer := unitWriter }

/-- Info of the hierarchical backend: `list` only, no recursion. -/
def hierInfo : AccessorInfo :=
  AccessorInfo.ofNative
    { create_dir := false, list := true, list_with_recursive := false,
      write_can_empty := false }

/-- Info of a backend advertising `{list, write_can_empty}` only
(scenario S2), after the layer is attached. -/
def wceInfo : AccessorInfo :=
  CompleteLayer.layer
    { create_dir := false, list := true, list_with_recursive := false,
      write_can_empty := true }

/-- An SFTP filesystem fixture over `Nat` error codes: code 2 is the
not-found code; `"gone/"` and `"gone"` are missing, `"locked"` fails
with code 7. -/
def sftpFsEx : SftpFs Nat :=
  { remove_dir := fun p => if p == "gone/" then .error 2 else .ok ()
    remove_file := fun p =>
      if p == "gone" then .error 2
      else if p == "locked" then .error 7 else .ok () }

/-- An SFTP core fixture whose connection succeeds. -/
def sftpCoreEx : SftpCore Nat :=
  { root := "/r/", connect := .ok sftpFsEx }

/-- The not-found predicate of the SFTP fixture. -/
def sftpNf (e : Nat) : Bool := e == 2

/-- The error conversion of the SFTP fixture. -/
def sftpParse (e : Nat) : OError :=
  (OError.new .Other "sftp failure").with_context "code" e

/-- A DBFS core fixture: deleting any path, present or not, answers
HTTP 200. -/
def dbfsCoreEx : DbfsCore :=
  { dbfs_delete := fun _ => .ok { status := 200 } }

/-- The error conversion of the DBFS fixture. -/
def dbfsParse (r : HttpResponse) : OError :=
  (OError.new .Other "dbfs failure").with_context "status" r.status

/-- Claim C1 as frozen: for every writer created by
`write(path, {append:false, content_length:c})` with `c > 0` whose
caller's writes all succeeded and whose inner close succeeds, close is
to succeed exactly when the bytes written equal the *declared* `c`,
failing with "writer got too little data" / "writer got too much data"
carrying `expect = c` and `actual = bytes written` otherwise. -/
def writerDeclaredLengthClaim : Prop :=
  ∀ (σ : Type) (A : InnerAccessor σ) (path : String) (args : OpWrite)
    (cw0 cw1 : CompleteWriter σ) (bss : List Buffer) (s s' : σ) (m : Metadata),
    args.append = false → 0 < args.content_length →
    (CompleteAccessor.write A path args).1 = .ok cw0 →
    writeAll A.writer cw0 bss = (cw1, none) →
    cw1.inner = some s → A.writer.close s = (s', .ok m) →
    (((CompleteWriter.close A.writer cw1).2.isOk = true) ↔
      cw1.size = args.content_length) ∧
    (cw1.size < args.content_length →
      (CompleteWriter.close A.writer cw1).2 =
        .error (((OError.new .Unexpected "writer got too little data").with_context
          "expect" args.content_length).with_context "actual" cw1.size)) ∧
    (args.content_length < cw1.size →
      (CompleteWriter.close A.writer cw1).2 =
        .error (((OError.new .Unexpected "writer got too much data").with_context
          "expect" args.content_length).with_context "actual" cw1.size))

/-! ## Claim theorems -/

/-- C8: whatever the backend's capabilities or contents, `stat("/")`
returns metadata with mode `DIR` and performs no inner call. -/
theorem C8_stat_root (σ : Type) (info : AccessorInfo) (A : InnerAccessor σ)
    (args : OpStat) :
    complete_stat info A "/" args = (.ok (Metadata.new .DIR), []) := by
  simp [complete_stat]

/-- C4: attaching the completion layer promotes `create_dir` in the full
capability view whenever the native view has both `list` and
`write_can_empty`, leaves the native view unchanged, and every dispatch
function reads only the native view. -/
theorem C4_capability_promotion (c : Capability) :
    (CompleteLayer.layer c).native = c ∧
    (c.list = true → c.write_can_empty = true →
      (CompleteLayer.layer c).full.create_dir = true) ∧
    (∀ (σ : Type) (i i' : AccessorInfo) (A : InnerAccessor σ) (path : String)
        (sargs : OpStat) (cargs : OpCreateDir) (largs : OpList),
      i.native = i'.native →
      complete_stat i A path sargs = complete_stat i' A path sargs ∧
      complete_create_dir i A path cargs = complete_create_dir i' A path cargs ∧
      complete_list i A path largs = complete_list i' A path largs) := by
  refine ⟨rfl, ?_, ?_⟩
  · intro h1 h2
    simp [CompleteLayer.layer, AccessorInfo.ofNative,
      AccessorInfo.update_full_capability, h1, h2]
  · intro σ i i' A path sargs cargs largs h
    refine ⟨?_, ?_, ?_⟩
    · unfold complete_stat; rw [h]
    · unfold complete_create_dir; rw [h]
    · unfold complete_list; rw [h]

/-- Witness for C4 at a backend with `list` and `write_can_empty` but no
native `create_dir`, and two infos sharing a native view but with
different full views. -/
theorem C4_capability_promotion_witness :
    (CompleteLayer.layer
      { create_dir := false, list := true, list_with_recursive := false,
        write_can_empty := true }).full.create_dir = true ∧
    complete_stat
        (AccessorInfo.mk
          { create_dir := false, list := true, list_with_recursive := false,
            write_can_empty := true }
          { create_dir := true, list := true, list_with_recursive := true,
            write_can_empty := true })
        emptyAccessor "a" OpStat.mk =
      complete_stat
        (AccessorInfo.ofNative
          { create_dir := false, list := true, list_with_recursive := false,
            write_can_empty := true })
        emptyAccessor "a" OpStat.mk :=
  ⟨(C4_capability_promotion _).2.1 rfl rfl,
   ((C4_capability_promotion
      { create_dir := false, list := true, list_with_recursive := false,
        write_can_empty := true }).2.2 Unit _ _ emptyAccessor "a" OpStat.mk
      OpCreateDir.mk OpList.default rfl).1⟩

/-- C2: the completing writer's lifecycle invariant. A write on an open
writer never clears the inner sink; a close or abort on an open writer
clears it exactly when it fully succeeds (so every failing step,
including a length-check failure after a successful inner close, leaves
it present); and once the sink is cleared every write, close, and abort
returns the "writer has been closed or aborted" `Unexpected` error,
leaves the state unchanged, and never invokes the inner sink (the
outcome does not mention the inner implementation at all). -/
theorem C2_writer_lifecycle (σ : Type) :
    (∀ (W : WriterImpl σ) (s : σ) (a : Bool) (z : Nat) (bs : Buffer),
      ((CompleteWriter.write W ⟨some s, a, z⟩ bs).1).inner.isSome = true) ∧
    (∀ (W : WriterImpl σ) (s : σ) (a : Bool) (z : Nat),
      ((CompleteWriter.close W ⟨some s, a, z⟩).1.inner = none ↔
        (CompleteWriter.close W ⟨some s, a, z⟩).2.isOk = true)) ∧
    (∀ (W : WriterImpl σ) (s : σ) (a : Bool) (z : Nat),
      ((CompleteWriter.abort W ⟨some s, a, z⟩).1.inner = none ↔
        (CompleteWriter.abort W ⟨some s, a, z⟩).2 = none)) ∧
    (∀ (W : WriterImpl σ) (a : Bool) (z : Nat) (bs : Buffer),
      CompleteWriter.write W ⟨none, a, z⟩ bs = (⟨none, a, z⟩, some closedErr)) ∧
    (∀ (W : WriterImpl σ) (a : Bool) (z : Nat),
      CompleteWriter.close W ⟨none, a, z⟩ = (⟨none, a, z⟩, .error closedErr)) ∧
    (∀ (W : WriterImpl σ) (a : Bool) (z : Nat),
      CompleteWriter.abort W ⟨none, a, z⟩ = (⟨none, a, z⟩, some closedErr)) := by
  refine ⟨?_, ?_, ?_, ?_, ?_, ?_⟩
  · intro W s a z bs
    simp only [CompleteWriter.write]
    rcases hw : W.write s bs with ⟨s2, e⟩
    cases e <;> simp [hw]
  · intro W s a z
    simp only [CompleteWriter.close]
    rcases hc : W.close s with ⟨s2, r⟩
    cases r with
    | error e => simp [hc, Except.isOk, Except.toBool]
    | ok ret =>
      rcases hk : CompleteWriter.check ⟨some s2, a, z⟩ ret.content_length with e | u
      · simp [hc, hk, Except.isOk, Except.toBool]
      · simp [hc, hk, Except.isOk, Except.toBool]
  · intro W s a z
    simp only [CompleteWriter.abort]
    rcases ha : W.abort s with ⟨s2, e⟩
    cases e <;> simp [ha]
  · intro W a z bs; rfl
  · intro W a z; rfl
  · intro W a z; rfl

/-- C1 is false on the code: the wrapper never stores the declared
`content_length` of the write request; its close checks the byte count
against the content length reported by the *inner* close. With an inner
writer whose close reports no content length, a writer declared with
`content_length = 5` that wrote only 3 bytes still closes successfully. -/
theorem C1_counterexample : ¬ writerDeclaredLengthClaim := by
  intro h
  have hmain := h Unit emptyAccessor "f" { append := false, content_length := 5 }
    (CompleteWriter.new () false) ⟨some (), false, 3⟩ [[0, 0, 0]] () ()
    (Metadata.new .FILE) rfl (by decide) rfl rfl rfl rfl
  have h35 : (3 : Nat) = 5 := hmain.1.mp rfl
  exact absurd h35 (by decide)

/-- C1 (amended): on a non-append completing writer holding `z` written
bytes, when the inner close succeeds returning metadata `m` with
`m.content_length ≠ 0`, close succeeds exactly when `z = m.content_length`
and otherwise fails with the `Unexpected` error "writer got too little
data" (fewer) or "writer got too much data" (more) carrying context
`expect = m.content_length` and `actual = z`; the check is skipped when
the writer is an append one or when `m.content_length = 0`. -/
theorem C1_close_checks_returned_length (σ : Type) (W : WriterImpl σ)
    (s s' : σ) (m : Metadata) (a : Bool) (z : Nat)
    (h : W.close s = (s', .ok m)) :
    (a = false → m.content_length ≠ 0 →
      (((CompleteWriter.close W ⟨some s, a, z⟩).2.isOk = true) ↔
        z = m.content_length) ∧
      (z < m.content_length →
        (CompleteWriter.close W ⟨some s, a, z⟩).2 =
          .error (((OError.new .Unexpected "writer got too little data").with_context
            "expect" m.content_length).with_context "actual" z)) ∧
      (m.content_length < z →
        (CompleteWriter.close W ⟨some s, a, z⟩).2 =
          .error (((OError.new .Unexpected "writer got too much data").with_context
            "expect" m.content_length).with_context "actual" z))) ∧
    ((a = true ∨ m.content_length = 0) →
      (CompleteWriter.close W ⟨some s, a, z⟩).2.isOk = true) := by
  constructor
  · intro ha hcl
    subst ha
    rcases Nat.lt_trichotomy z m.content_length with hlt | heq | hgt
    · have h1 : (CompleteWriter.close W ⟨some s, false, z⟩).2 =
          .error (((OError.new .Unexpected "writer got too little data").with_context
            "expect" m.content_length).with_context "actual" z) := by
        simp [CompleteWriter.close, h, CompleteWriter.check, hcl, hlt, Nat.ne_of_lt hlt]
      refine ⟨?_, fun _ => h1, fun hgt2 => absurd hgt2 (Nat.lt_asymm hlt)⟩
      rw [h1]
      simp [Except.isOk, Except.toBool, Nat.ne_of_lt hlt]
    · have h1 : (CompleteWriter.close W ⟨some s, false, z⟩).2.isOk = true := by
        simp [CompleteWriter.close, h, CompleteWriter.check, hcl, heq,
          Except.isOk, Except.toBool]
      exact ⟨⟨fun _ => heq, fun _ => h1⟩,
        fun hlt2 => absurd heq (Nat.ne_of_lt hlt2),
        fun hgt2 => absurd heq.symm (Nat.ne_of_lt hgt2)⟩
    · have h1 : (CompleteWriter.close W ⟨some s, false, z⟩).2 =
          .error (((OError.new .Unexpected "writer got too much data").with_context
            "expect" m.content_length).with_context "actual" z) := by
        simp [CompleteWriter.close, h, CompleteWriter.check, hcl,
          Nat.lt_asymm hgt, Nat.ne_of_gt hgt]
      refine ⟨?_, fun hlt2 => absurd hlt2 (Nat.lt_asymm hgt), fun _ => h1⟩
      rw [h1]
      simp [Except.isOk, Except.toBool, Nat.ne_of_gt hgt]
  · intro hskip
    rcases hskip with ha | hcl
    · subst ha
      simp [CompleteWriter.close, h, CompleteWriter.check, Except.isOk, Except.toBool]
    · simp [CompleteWriter.close, h, CompleteWriter.check, hcl,
        Except.isOk, Except.toBool]

/-- Witness for the amended C1: an inner close reporting content length
five accepts exactly five written bytes. -/
theorem C1_close_checks_returned_length_witness :
    (CompleteWriter.close w5 ⟨some (), false, 5⟩).2.isOk = true :=
  ((C1_close_checks_returned_length Unit w5 () ()
    { mode := .FILE, content_length := 5 } false 5 rfl).1 rfl
    (by decide)).1.mpr rfl

/-- C3: with an expected size, every non-empty inner chunk is forwarded
unchanged and counted; the check runs only on the terminal empty chunk,
succeeding exactly when the bytes read equal the expected size and
otherwise failing with the `Unexpected` error "reader got too little
data" / "reader got too much data" carrying `expect` and `actual`; with
no expected size no check is performed. -/
theorem C3_reader_length_check (σ : Type) (R : ReaderImpl σ)
    (r : CompleteReader σ) (s2 : σ) (buf : Buffer)
    (h : R.read r.inner = (s2, .ok buf)) :
    (buf ≠ [] →
      CompleteReader.readOp R r =
        ({ r with inner := s2, read := r.read + buf.length }, .ok buf)) ∧
    (buf = [] → ∀ n, r.size = some n →
      (r.read = n →
        CompleteReader.readOp R r = ({ r with inner := s2 }, .ok buf)) ∧
      (r.read < n →
        (CompleteReader.readOp R r).2 =
          .error (((OError.new .Unexpected "reader got too little data").with_context
            "expect" n).with_context "actual" r.read)) ∧
      (n < r.read →
        (CompleteReader.readOp R r).2 =
          .error (((OError.new .Unexpected "reader got too much data").with_context
            "expect" n).with_context "actual" r.read))) ∧
    (r.size = none → (CompleteReader.readOp R r).2 = .ok buf) := by
  refine ⟨?_, ?_, ?_⟩
  · intro hne
    simp [CompleteReader.readOp, h, List.isEmpty_iff, hne]
  · intro hbuf n hn
    subst hbuf
    refine ⟨?_, ?_, ?_⟩
    · intro heq
      simp [CompleteReader.readOp, h, CompleteReader.check, hn, heq]
    · intro hlt
      simp [CompleteReader.readOp, h, CompleteReader.check, hn,
        Nat.ne_of_lt hlt, hlt]
    · intro hgt
      simp [CompleteReader.readOp, h, CompleteReader.check, hn,
        Nat.ne_of_gt hgt, Nat.lt_asymm hgt]
  · intro hn
    cases buf with
    | nil => simp [CompleteReader.readOp, h, CompleteReader.check, hn]
    | cons x xs => simp [CompleteReader.readOp, h, CompleteReader.check, hn]

/-- Witness for C3: a three-byte chunk with expected size three is
forwarded and counted, and the terminal empty read of a reader that saw
only two of three expected bytes fails with "reader got too little
data". -/
theorem C3_reader_length_check_witness :
    CompleteReader.readOp streamReader ⟨[[7, 8, 9]], some 3, 0⟩ =
      (⟨[], some 3, 3⟩, .ok [7, 8, 9]) ∧
    (CompleteReader.readOp streamReader ⟨[], some 3, 2⟩).2 =
      .error (((OError.new .Unexpected "reader got too little data").with_context
        "expect" 3).with_context "actual" 2) :=
  ⟨(C3_reader_length_check (List Buffer) streamReader ⟨[[7, 8, 9]], some 3, 0⟩
      [] [7, 8, 9] rfl).1 (by decide),
   ((C3_reader_length_check (List Buffer) streamReader ⟨[], some 3, 2⟩
      [] [] rfl).2.1 rfl 3 rfl).2.1 (by decide)⟩

/-- Witness for C2 at a cleared writer: close fails with the closed
error and leaves the state unchanged. -/
theorem C2_writer_lifecycle_witness :
    CompleteWriter.close unitWriter ⟨none, false, 0⟩ =
      (⟨none, false, 0⟩, .error closedErr) :=
  (C2_writer_lifecycle Unit).2.2.2.2.1 unitWriter false 0

/-- Witness for C8 on the S3-like backend. -/
theorem C8_stat_root_witness :
    complete_stat s3Info s3Accessor "/" OpStat.mk =
      (.ok (Metadata.new .DIR), []) :=
  C8_stat_root Unit s3Info s3Accessor OpStat.mk

/-- C5: `create_dir` delegates when the native capability is there;
otherwise, with `write_can_empty` and `list`, it issues exactly one
zero-length write at the path (an inner write opened with default
arguments and closed at once), returning a default success when that
close succeeds and the inner close outcome otherwise; in every other
case it delegates. -/
theorem C5_create_dir_dispatch (σ : Type) (info : AccessorInfo)
    (A : InnerAccessor σ) (path : String) (args : OpCreateDir) :
    (info.native.create_dir = true →
      complete_create_dir info A path args =
        (A.createDirRes path args, [.createDirCall path args])) ∧
    (info.native.create_dir = false → info.native.write_can_empty = true →
      info.native.list = true →
      ∀ w, A.writeRes path OpWrite.default = .ok w →
        complete_create_dir info A path args =
          ((A.writer.close w).2.map (fun _ => ()),
           [.writeCall path OpWrite.default, .writerCloseCall])) ∧
    (info.native.create_dir = false →
      (info.native.write_can_empty && info.native.list) = false →
      complete_create_dir info A path args =
        (A.createDirRes path args, [.createDirCall path args])) := by
  refine ⟨?_, ?_, ?_⟩
  · intro hcd
    simp [complete_create_dir, hcd]
  · intro hcd hwce hlist w hw
    rcases hc : (A.writer.close w).2 with e | m
    · simp [complete_create_dir, hcd, hwce, hlist, hw, hc, Except.map]
    · simp [complete_create_dir, hcd, hwce, hlist, hw, hc, Except.map]
  · intro hcd hflags
    simp [complete_create_dir, hcd, hflags]

/-- Witness for C5 (scenario S2): a backend with only `{list,
write_can_empty}` simulates `create_dir("a/b/")` by one zero-length
write closed at once. -/
theorem C5_create_dir_dispatch_witness :
    complete_create_dir wceInfo emptyAccessor "a/b/" OpCreateDir.mk =
      (.ok (), [.writeCall "a/b/" OpWrite.default, .writerCloseCall]) :=
  (C5_create_dir_dispatch Unit wceInfo emptyAccessor "a/b/"
    OpCreateDir.mk).2.1 rfl rfl rfl () rfl

/-- C6: for a non-root directory path on a backend without native
`create_dir` but with `list_with_recursive`, stat issues one recursive
list at the path with limit one and answers directory metadata exactly
when the lister yields an entry, the not-found error "the directory is
not found" otherwise. -/
theorem C6_stat_dir_via_list (σ : Type) (info : AccessorInfo)
    (A : InnerAccessor σ) (path : String) (args : OpStat) (l : List Entry)
    (hroot : path ≠ "/") (hslash : ends_with_slash path = true)
    (hcd : info.native.create_dir = false)
    (hlwr : info.native.list_with_recursive = true)
    (hl : A.listRes path ((OpList.default.with_recursive true).with_limit 1) = .ok l) :
    complete_stat info A path args =
      ((if l.isEmpty then .error (OError.new .NotFound "the directory is not found")
        else .ok (Metadata.new .DIR)),
       [.listCall path ((OpList.default.with_recursive true).with_limit 1)]) := by
  have hbeq : (path == "/") = false := beq_eq_false_iff_ne.mpr hroot
  cases l with
  | nil => simp [complete_stat, hbeq, hslash, hcd, hlwr, hl]
  | cons a as => simp [complete_stat, hbeq, hslash, hcd, hlwr, hl]

/-- Witness for C6 (scenario S3): on the S3-like backend, `stat("x/")`
answers a directory, `stat("z/")` is not found. -/
theorem C6_stat_dir_via_list_witness :
    complete_stat s3Info s3Accessor "x/" OpStat.mk =
      (.ok (Metadata.new .DIR),
       [.listCall "x/" ((OpList.default.with_recursive true).with_limit 1)]) ∧
    complete_stat s3Info s3Accessor "z/" OpStat.mk =
      (.error (OError.new .NotFound "the directory is not found"),
       [.listCall "z/" ((OpList.default.with_recursive true).with_limit 1)]) :=
  ⟨C6_stat_dir_via_list Unit s3Info s3Accessor "x/" OpStat.mk
      [{ path := "x/y.txt", mode := .FILE }] (by decide) rfl rfl rfl rfl,
   C6_stat_dir_via_list Unit s3Info s3Accessor "z/" OpStat.mk
      [] (by decide) rfl rfl rfl rfl⟩

/-- C7: a non-recursive list of a file-prefix path on a backend without
`list_with_recursive` delegates to the inner accessor at the parent and
wraps the result in a prefix lister for the full path; the entries that
lister yields are exactly the inner entries whose key starts with the
path, in inner order — the spec-side parent-and-filter listing. -/
theorem C7_list_parent_prefix_refinement (σ : Type) (info : AccessorInfo)
    (A : InnerAccessor σ) (path : String) (args : OpList) (es : List Entry)
    (hslash : ends_with_slash path = false)
    (hlwr : info.native.list_with_recursive = false)
    (hrec : args.recursive = false)
    (hl : A.listRes (get_parent path) args = .ok es) :
    complete_list info A path args =
      (.ok (.three es path), [.listCall (get_parent path) args]) ∧
    prefixPull path es = es.filter (fun e => starts_with e.path path) ∧
    spec_list_by_parent_filter A path args = .ok (prefixPull path es) := by
  refine ⟨?_, prefixPull_eq_filter path es, ?_⟩
  · simp [complete_list, hslash, hlwr, hrec, hl]
  · simp [spec_list_by_parent_filter, hl, Except.map, prefixPull_eq_filter]

/-- Witness for C7 (scenario S5): `list("dir/ap")` on the hierarchical
backend delegates to `"dir/"` and retains apple and apricot. -/
theorem C7_list_parent_prefix_refinement_witness :
    complete_list hierInfo dirAccessor "dir/ap" OpList.default =
      (.ok (.three
        [{ path := "dir/apple", mode := .FILE },
         { path := "dir/apricot", mode := .FILE },
         { path := "dir/banana", mode := .FILE }] "dir/ap"),
       [.listCall (get_parent "dir/ap") OpList.default]) ∧
    prefixPull "dir/ap"
        [{ path := "dir/apple", mode := .FILE },
         { path := "dir/apricot", mode := .FILE },
         { path := "dir/banana", mode := .FILE }] =
      [{ path := "dir/apple", mode := .FILE },
       { path := "dir/apricot", mode := .FILE }] := by
  have h := C7_list_parent_prefix_refinement Unit hierInfo dirAccessor
    "dir/ap" OpList.default
    [{ path := "dir/apple", mode := .FILE },
     { path := "dir/apricot", mode := .FILE },
     { path := "dir/banana", mode := .FILE }] rfl rfl rfl rfl
  exact ⟨h.1, by rw [h.2.1]; rfl⟩

/-- C9: the SFTP deleter removes a directory when the path ends with a
slash and a file otherwise; removal success and a not-found error both
yield success, every other error is surfaced as the parsed SFTP
error. -/
theorem C9_sftp_delete_once (ε : Type) (is_nf : ε → Bool)
    (parse_sftp : ε → OError) (core : SftpCore ε) (path : String)
    (fs : SftpFs ε) (hc : core.connect = .ok fs) :
    (ends_with_slash path = true →
      (fs.remove_dir path = .ok () →
        SftpDeleter.delete_once is_nf parse_sftp core path =
          (.ok (), [.removeDir path])) ∧
      (∀ e, fs.remove_dir path = .error e → is_nf e = true →
        SftpDeleter.delete_once is_nf parse_sftp core path =
          (.ok (), [.removeDir path])) ∧
      (∀ e, fs.remove_dir path = .error e → is_nf e = false →
        SftpDeleter.delete_once is_nf parse_sftp core path =
          (.error (parse_sftp e), [.removeDir path]))) ∧
    (ends_with_slash path = false →
      (fs.remove_file path = .ok () →
        SftpDeleter.delete_once is_nf parse_sftp core path =
          (.ok (), [.removeFile path])) ∧
      (∀ e, fs.remove_file path = .error e → is_nf e = true →
        SftpDeleter.delete_once is_nf parse_sftp core path =
          (.ok (), [.removeFile path])) ∧
      (∀ e, fs.remove_file path = .error e → is_nf e = false →
        SftpDeleter.delete_once is_nf parse_sftp core path =
          (.error (parse_sftp e), [.removeFile path]))) := by
  refine ⟨fun hs => ⟨?_, ?_, ?_⟩, fun hs => ⟨?_, ?_, ?_⟩⟩
  · intro hres
    simp [SftpDeleter.delete_once, hc, hs, hres, sftpHandle]
  · intro e hres hnf
    simp [SftpDeleter.delete_once, hc, hs, hres, hnf, sftpHandle]
  · intro e hres hnf
    simp [SftpDeleter.delete_once, hc, hs, hres, hnf, sftpHandle]
  · intro hres
    simp [SftpDeleter.delete_once, hc, hs, hres, sftpHandle]
  · intro e hres hnf
    simp [SftpDeleter.delete_once, hc, hs, hres, hnf, sftpHandle]
  · intro e hres hnf
    simp [SftpDeleter.delete_once, hc, hs, hres, hnf, sftpHandle]

/-- Witness for C9: deleting an existing directory, a missing file
(not-found is swallowed), and a file failing with another code. -/
theorem C9_sftp_delete_once_witness :
    SftpDeleter.delete_once sftpNf sftpParse sftpCoreEx "d/" =
      (.ok (), [.removeDir "d/"]) ∧
    SftpDeleter.delete_once sftpNf sftpParse sftpCoreEx "gone" =
      (.ok (), [.removeFile "gone"]) ∧
    SftpDeleter.delete_once sftpNf sftpParse sftpCoreEx "locked" =
      (.error (sftpParse 7), [.removeFile "locked"]) :=
  ⟨(C9_sftp_delete_once Nat sftpNf sftpParse sftpCoreEx "d/" sftpFsEx rfl).1
      rfl |>.1 rfl,
   ((C9_sftp_delete_once Nat sftpNf sftpParse sftpCoreEx "gone" sftpFsEx rfl).2
      rfl).2.1 2 rfl rfl,
   ((C9_sftp_delete_once Nat sftpNf sftpParse sftpCoreEx "locked" sftpFsEx rfl).2
      rfl).2.2 7 rfl rfl⟩

/-- C10: the DBFS deleter succeeds exactly when the backend answers
HTTP 200 (which the server answers even for a missing path), and every
other status is surfaced as the parsed HTTP error. -/
theorem C10_dbfs_delete_once (parse_err : HttpResponse → OError)
    (core : DbfsCore) (path : String) (resp : HttpResponse)
    (h : core.dbfs_delete path = .ok resp) :
    ((DbfsDeleter.delete_once parse_err core path = .ok ()) ↔
      resp.status = 200) ∧
    (resp.status ≠ 200 →
      DbfsDeleter.delete_once parse_err core path = .error (parse_err resp)) := by
  have hrun : DbfsDeleter.delete_once parse_err core path =
      (if resp.status == 200 then .ok () else .error (parse_err resp)) := by
    simp [DbfsDeleter.delete_once, h]
  by_cases hs : resp.status = 200
  · refine ⟨?_, fun hne => absurd hs hne⟩
    simp [hrun, hs]
  · refine ⟨?_, fun _ => by simp [hrun, hs]⟩
    simp [hrun, hs]

/-- Witness for C10: deleting a missing path on the fixture backend,
which answers 200 regardless, succeeds. -/
theorem C10_dbfs_delete_once_witness :
    DbfsDeleter.delete_once dbfsParse dbfsCoreEx "missing" = .ok () :=
  (C10_dbfs_delete_once dbfsParse dbfsCoreEx "missing"
    { status := 200 } rfl).1.mpr rfl

end Opendal
